import Mathlib

/-!
# No-Ping core: shallow embedding and verification

A shallow embedding in Lean 4 of the core logic of the No-Ping latency
optimizer, together with theorems checking its natural-language
specification against the code.

Embedded modules:
* `src/network/packet_handler.py` — packet interception/rewrite engine,
  ping-based route selection, capture lifecycle, filter-string builder;
* `src/steam/game_detector.py` — edge-triggered game lifecycle detection;
* `src/steam/steam_manager.py` — log tailing and server-region detection.

Strings are modelled as `List Char` (Python `str`), latencies as `ℚ`
(Python `float` used only for parsing and `<` comparison on decimal
millisecond values), and the concurrent loops as explicit state-passing
functions over the sequence of inputs each loop iteration consumes.
-/

namespace NoPing

/-! ## String helpers (Python `in`, `str.lower`, `str.title`, `str.split`) -/

/-- Python `needle in hay` on strings: substring containment. -/
def occursIn (needle : List Char) : List Char → Bool
  | [] => needle.isEmpty
  | c :: t => needle.isPrefixOf (c :: t) || occursIn needle t

/-- Python `str.lower` (ASCII, which covers all inputs in this code base). -/
def pyLower (s : List Char) : List Char := s.map Char.toLower

/-- Helper for `pyTitle`: the Boolean records whether the previous
character was alphabetic. -/
def pyTitleAux : Bool → List Char → List Char
  | _, [] => []
  | prevAlpha, c :: cs =>
    let c' := if c.isAlpha then (if prevAlpha then c.toLower else c.toUpper) else c
    c' :: pyTitleAux c.isAlpha cs

/-- Python `str.title`: first letter of each alphabetic run uppercased,
the rest lowercased. -/
def pyTitle (s : List Char) : List Char := pyTitleAux false s

/-- Split a list on a separator element, Python `str.split(sep)` for a
one-character separator (`os.sep` is the single character `\` on the
target platform). -/
def splitOnSep (sep : Char) : List Char → List (List Char)
  | [] => [[]]
  | c :: t =>
    let r := splitOnSep sep t
    if c = sep then [] :: r
    else match r with
      | [] => [[c]]
      | h :: t' => (c :: h) :: t'

/-! ## Packet interception engine (`packet_handler.py`, `_process_packets`)

A packet is modelled by the fields `_process_packets` and the filter
language inspect: transport protocol, addresses, ports and payload. -/

structure Packet where
  isTcp : Bool
  srcAddr : List Char
  dstAddr : List Char
  srcPort : Nat
  dstPort : Nat
  payload : List Nat
deriving DecidableEq, Repr

/-- `packet.dst_port in self.game_ports or packet.src_port in self.game_ports`. -/
def isGamePacket (gamePorts : List Nat) (p : Packet) : Bool :=
  gamePorts.contains p.dstPort || gamePorts.contains p.srcPort

/-- The per-packet body of `_process_packets`: if the packet is a game
packet and a best route is published (`if self.best_route:` is Python
truthiness, so `None` and the empty string both fail it), set the
destination address to the best route; otherwise leave the packet as
delivered. -/
def processPacket (gamePorts : List Nat) (bestRoute : Option (List Char))
    (p : Packet) : Packet :=
  if isGamePacket gamePorts p then
    match bestRoute with
    | some r => if r.isEmpty then p else { p with dstAddr := r }
    | none => p
  else p

/-- Capture-session state: whether `self.windivert` holds a handle and the
`self.is_running` flag. -/
structure CaptureState where
  windivert : Bool
  is_running : Bool
deriving DecidableEq, Repr

/-- Outcome of one `stop_capture` call.  `released` is the branch that
closes the handle; `noop` is the silent fall-through when the guard
`self.windivert and self.is_running` is false.  `error` represents a
raised exception carrying a name; no path in `stop_capture` constructs
it (the only `raise` re-raises a failure of the external `close()`,
which is outside this model). -/
inductive StopOutcome
  | released
  | noop
  | error (name : List Char)
deriving DecidableEq, Repr

/-- `stop_capture`: only acts when a handle exists and capture is
running; it clears `is_running` and closes the handle (the `self.windivert`
attribute itself is never reset to `None`). -/
def stop_capture (s : CaptureState) : CaptureState × StopOutcome :=
  if s.windivert && s.is_running then
    ({ windivert := s.windivert, is_running := false }, .released)
  else (s, .noop)

/-- One packet delivered by `self.windivert.recv()` together with whether
the subsequent `self.windivert.send(packet)` raises. -/
structure Delivery where
  packet : Packet
  sendFails : Bool
deriving DecidableEq, Repr

/-- Result of a run of `_process_packets`: the packets actually handed to
`send`, the final capture state, and whether the `except` branch logged
an error. -/
structure LoopResult where
  sent : List Packet
  state : CaptureState
  errLogged : Bool
deriving DecidableEq, Repr

/-- `_process_packets`: the `while self.is_running` receive loop.  Each
iteration receives one delivery, rewrites it via `processPacket` and
sends it.  A raised exception (here: a failing send) is caught by the
single `except` around the whole loop, which logs the error and calls
`stop_capture`; the loop then terminates and the failing packet is not
re-sent.  The best route is modelled as fixed across the run (claims
quantify over runs during which one value is published). -/
def processPackets (gamePorts : List Nat) (bestRoute : Option (List Char)) :
    CaptureState → List Delivery → LoopResult
  | s, [] => ⟨[], s, false⟩
  | s, d :: rest =>
    if s.is_running then
      if d.sendFails then ⟨[], (stop_capture s).1, true⟩
      else
        let r := processPackets gamePorts bestRoute s rest
        ⟨processPacket gamePorts bestRoute d.packet :: r.sent, r.state, r.errLogged⟩
    else ⟨[], s, false⟩

/-! ## Route selector (`packet_handler.py`, `_monitor_ping`)

`self.ping_stats` is a dict from endpoint address to the latest ping
sample, modelled as an association list; latencies are `ℚ`. -/

structure RouteState where
  ping_stats : List (List Char × ℚ)
  best_route : Option (List Char)
deriving DecidableEq

/-- Dict assignment `self.ping_stats[ip] = ping_time`. -/
def statsUpdate (stats : List (List Char × ℚ)) (ip : List Char) (t : ℚ) :
    List (List Char × ℚ) :=
  match stats with
  | [] => [(ip, t)]
  | (k, v) :: rest => if k = ip then (k, t) :: rest else (k, v) :: statsUpdate rest ip t

/-- Dict lookup `self.ping_stats.get(ip)`. -/
def statsGet (stats : List (List Char × ℚ)) (ip : List Char) : Option ℚ :=
  match stats with
  | [] => none
  | (k, v) :: rest => if k = ip then some v else statsGet rest ip

/-- One successful ping sample in `_monitor_ping`.  The assignment
`self.ping_stats[ip] = ping_time` runs first; only then is the guard
`self.best_route is None or ping_time < self.ping_stats.get(self.best_route, float('inf'))`
evaluated — against the already-updated stats.  When it holds,
`best_route` is set to `ip` and a "New best route" notification is
logged; the returned Boolean records whether that notification fired.
A missing incumbent entry means `.get` returns `float('inf')`, so the
comparison holds. -/
def recordSample (s : RouteState) (ip : List Char) (t : ℚ) : RouteState × Bool :=
  let stats' := statsUpdate s.ping_stats ip t
  let better :=
    match s.best_route with
    | none => true
    | some b =>
      match statsGet stats' b with
      | none => true
      | some v => decide (t < v)
  if better then ({ ping_stats := stats', best_route := some ip }, true)
  else ({ ping_stats := stats', best_route := s.best_route }, false)

/-! ## Game lifecycle detector (`game_detector.py`) -/

/-- A process-table entry: `psutil` name and optional executable path. -/
structure Proc where
  name : List Char
  exe : Option (List Char)
deriving DecidableEq, Repr

/-- `GameDetector.IGNORE_PROCESSES`. -/
def IGNORE_PROCESSES : List (List Char) :=
  ["steam.exe".data, "steamservice.exe".data, "steamwebhelper.exe".data,
   "GameOverlayUI.exe".data, "Steam.exe".data, "cef.win7x64.exe".data,
   "steamclean.exe".data]

/-- `os.sep` on the target platform (Windows). -/
def osSep : Char := '\\'

/-- `_is_steam_game`: requires a truthy executable path, a process name
(lowered) outside the ignore set, the lowered Steam path occurring as a
substring of the lowered executable path, and `common` or `steamapps`
occurring in it. -/
def is_steam_game (steamPath : List Char) (p : Proc) : Bool :=
  match p.exe with
  | none => false
  | some e =>
    if e.isEmpty then false
    else if IGNORE_PROCESSES.contains (pyLower p.name) then false
    else
      let ep := pyLower e
      let sp := pyLower steamPath
      occursIn sp ep && (occursIn "common".data ep || occursIn "steamapps".data ep)

/-- The `common` branch of `_get_game_name`: the path segment right after
`common`, title-cased, provided such a segment exists. -/
def nameFromCommon (parts : List (List Char)) : Option (List Char) :=
  match List.findIdx? (fun seg => seg == "common".data) parts with
  | some i => if i + 1 < parts.length then some (pyTitle (parts.getD (i + 1) [])) else none
  | none => none

/-- The `steamapps` branch of `_get_game_name`: the segment two after
`steamapps`, title-cased, provided it exists. -/
def nameFromSteamapps (parts : List (List Char)) : Option (List Char) :=
  match List.findIdx? (fun seg => seg == "steamapps".data) parts with
  | some i => if i + 2 < parts.length then some (pyTitle (parts.getD (i + 2) [])) else none
  | none => none

/-- `os.path.basename(os.path.dirname(exe_path))`: the next-to-last path
segment, or empty when the path has fewer than two segments. -/
def parentDirOf (e : List Char) : List Char :=
  let parts := splitOnSep osSep e
  if 2 ≤ parts.length then parts.getD (parts.length - 2) [] else []

/-- Python `name.replace(".exe", "")`: delete every occurrence. -/
def stripDotExe : List Char → List Char
  | '.' :: 'e' :: 'x' :: 'e' :: t => stripDotExe t
  | c :: t => c :: stripDotExe t
  | [] => []

/-- Directories the parent-directory fallback of `_get_game_name` rejects. -/
def BIN_DIRS : List (List Char) :=
  ["bin".data, "binaries".data, "win64".data, "win32".data]

/-- `_get_game_name`: segment after `common` in the lowered path, else
segment two after `steamapps`, else the parent directory of the original
path unless it is empty or a known binary directory, else the process
name with `.exe` removed — each candidate title-cased. -/
def get_game_name (p : Proc) : Option (List Char) :=
  match p.exe with
  | none => none
  | some e =>
    if e.isEmpty then none
    else
      let parts := splitOnSep osSep (pyLower e)
      match nameFromCommon parts with
      | some n => some n
      | none =>
        match nameFromSteamapps parts with
        | some n => some n
        | none =>
          let parent := parentDirOf e
          if ¬parent.isEmpty ∧ ¬BIN_DIRS.contains (pyLower parent) then
            some (pyTitle parent)
          else some (pyTitle (stripDotExe p.name))

/-- Lifecycle events emitted through the detector callbacks. -/
inductive GameEvent
  | launched (name : List Char)
  | closed
deriving DecidableEq, Repr

/-- The process scan inside one iteration of `_monitor_games`: the first
process with a truthy executable that `_is_steam_game` accepts and whose
derived name is truthy wins (the loop then breaks); a qualifying process
with a falsy name does not stop the scan. -/
def findGame (steamPath : List Char) : List Proc → Option (List Char)
  | [] => none
  | p :: rest =>
    match p.exe with
    | none => findGame steamPath rest
    | some e =>
      if e.isEmpty then findGame steamPath rest
      else if is_steam_game steamPath p then
        match get_game_name p with
        | some n => if n.isEmpty then findGame steamPath rest else some n
        | none => findGame steamPath rest
      else findGame steamPath rest

/-- One iteration of `_monitor_games` over a process snapshot: fire
`launched` only when a game is found that differs from `current_game`;
fire `closed` only when no game is found while `current_game` is set. -/
def pollStep (steamPath : List Char) (cur : Option (List Char))
    (procs : List Proc) : Option (List Char) × List GameEvent :=
  match findGame steamPath procs with
  | some n => if cur = some n then (cur, []) else (some n, [.launched n])
  | none =>
    match cur with
    | some _ => (none, [.closed])
    | none => (none, [])

/-- The polling loop of `_monitor_games` over a sequence of process-table
snapshots, collecting all emitted events. -/
def pollRun (steamPath : List Char) : Option (List Char) → List (List Proc) → List GameEvent
  | _, [] => []
  | cur, ps :: rest =>
    let r := pollStep steamPath cur ps
    r.2 ++ pollRun steamPath r.1 rest

/-- Concrete Steam install path used by the lifecycle scenarios. -/
def steamPath0 : List Char := "C:\\Program Files (x86)\\Steam".data

/-- A snapshot holding only Steam's own helper processes. -/
def steamOnly0 : List Proc :=
  [⟨"steam.exe".data, some "C:\\Program Files (x86)\\Steam\\steam.exe".data⟩,
   ⟨"steamwebhelper.exe".data, some "C:\\Program Files (x86)\\Steam\\steamwebhelper.exe".data⟩]

/-- A qualifying game process under `steamapps\common\Game`. -/
def gameProc0 : Proc :=
  ⟨"Game.exe".data,
   some "C:\\Program Files (x86)\\Steam\\steamapps\\common\\Game\\Game.exe".data⟩

/-! ## Server region detector (`steam_manager.py`) -/

/-- The dict `{'region': ..., 'timestamp': time.time()}` returned by
`_detect_current_server` and stored in `self.current_server`. -/
structure ServerInfo where
  region : List Char
  timestamp : ℚ
deriving DecidableEq, Repr

/-- The tailing cursor: `self._current_log_file` (the tailed file's path)
and `self._last_log_size`. -/
structure LogCursor where
  current_log_file : Option (List Char)
  last_log_size : Nat
deriving DecidableEq, Repr

/-- Python `f.readlines()`: split into lines, each keeping its
terminating newline; a final unterminated segment is its own line. -/
def pyReadlinesAux (acc : List Char) : List Char → List (List Char)
  | [] => if acc.isEmpty then [] else [acc.reverse]
  | c :: t =>
    if c = '\n' then (acc.reverse ++ ['\n']) :: pyReadlinesAux [] t
    else pyReadlinesAux (c :: acc) t

/-- Python `f.readlines()` on a chunk of text. -/
def pyReadlines (s : List Char) : List (List Char) := pyReadlinesAux [] s

/-- Python `lines[-100:]`. -/
def takeLast (n : Nat) (l : List (List Char)) : List (List Char) :=
  l.drop (l.length - n)

/-- Result of one `_detect_current_server` cycle: the updated cursor, the
detected server (if any), and the bytes actually read from the log file
this cycle. -/
structure DetectResult where
  cursor : LogCursor
  found : Option ServerInfo
  bytesRead : List Char
deriving DecidableEq, Repr

/-- `_detect_current_server`, from the point where `latest_log` (the
most-recently-modified `*.log` file, here `path` with contents `content`)
has been selected.  The file is opened only when its identity or size
differs from the cursor.  A falsy `server_log_pattern` (modelled as
`none`) returns with no read and no cursor update.  For a new file the
read seeks to `max(0, size - 8192)` (the last 8KB; `Nat` subtraction is
exactly Python's `max(0, ...)`) and keeps the last 100 lines; for the
same file it seeks to the recorded size and reads what was appended.
The new lines are scanned most-recent-first and the first pattern match
yields `{'region': match.group(1), 'timestamp': time.time()}`. -/
def detect_current_server (pattern : Option (List Char → Option (List Char)))
    (cur : LogCursor) (path content : List Char) (now : ℚ) : DetectResult :=
  let current_size := content.length
  if cur.current_log_file ≠ some path ∨ current_size ≠ cur.last_log_size then
    match pattern with
    | none => ⟨cur, none, []⟩
    | some m =>
      let bytes :=
        if cur.current_log_file ≠ some path then content.drop (current_size - 8192)
        else content.drop cur.last_log_size
      let lines :=
        if cur.current_log_file ≠ some path then takeLast 100 (pyReadlines bytes)
        else pyReadlines bytes
      ⟨⟨some path, current_size⟩,
       (lines.reverse.findSome? m).map (fun reg => ⟨reg, now⟩), bytes⟩
  else ⟨cur, none, []⟩

/-- The state carried by `_monitor_server_changes`: the tailing cursor
and `self.current_server`. -/
structure MonitorState where
  cursor : LogCursor
  current_server : Option ServerInfo
deriving DecidableEq, Repr

/-- One log check of `_monitor_server_changes`: run the detection and, on
`if new_server and new_server != self.current_server` (a dict comparison,
so the timestamp field participates), store the new dict and fire the
`on_server_change` callback; the returned list holds the callback
arguments fired by this check. -/
def monitor_step (pattern : Option (List Char → Option (List Char)))
    (st : MonitorState) (path content : List Char) (now : ℚ) :
    MonitorState × List ServerInfo :=
  let r := detect_current_server pattern st.cursor path content now
  match r.found with
  | some s =>
    if some s ≠ st.current_server then (⟨r.cursor, some s⟩, [s])
    else (⟨r.cursor, st.current_server⟩, [])
  | none => (⟨r.cursor, st.current_server⟩, [])

/-- A sequence of log checks: each cycle sees the selected log file's
path, its contents at that moment, and the current time; all fired
callback arguments are collected in order. -/
def monitor_run (pattern : Option (List Char → Option (List Char))) :
    MonitorState → List (List Char × List Char × ℚ) → List ServerInfo
  | _, [] => []
  | st, (path, content, now) :: rest =>
    let r := monitor_step pattern st path content now
    r.2 ++ monitor_run pattern r.1 rest

/-- Matching attempt of the Marvel Rivals pattern
`Selected Region:\s*([A-Z]+)` anchored at the start of `s`. -/
def matchRegionAt (s : List Char) : Option (List Char) :=
  if "Selected Region:".data.isPrefixOf s then
    let rest := (s.drop "Selected Region:".data.length).dropWhile Char.isWhitespace
    let reg := rest.takeWhile (fun c => 'A' ≤ c ∧ c ≤ 'Z')
    if reg.isEmpty then none else some reg
  else none

/-- `re.search` of the Marvel Rivals pattern over one line: the leftmost
match wins and its group(1) — the uppercase region run — is returned. -/
def searchRegion : List Char → Option (List Char)
  | [] => none
  | c :: t =>
    match matchRegionAt (c :: t) with
    | some r => some r
    | none => searchRegion t

/-! ## Filter builder (`packet_handler.py`, `_build_filter_string`) -/

/-- Python `" or ".join(port_filters)`. -/
def pyJoin (sep : List Char) : List (List Char) → List Char
  | [] => []
  | [x] => x
  | x :: y :: t => x ++ sep ++ pyJoin sep (y :: t)

/-- One element of the `port_filters` list comprehension in
`_build_filter_string`: the two concatenated f-strings for one port. -/
def port_filter (q : Nat) : List Char :=
  ("tcp.DstPort == ".data ++ (Nat.repr q).data ++ " or udp.DstPort == ".data
      ++ (Nat.repr q).data ++ " or ".data)
    ++ ("tcp.SrcPort == ".data ++ (Nat.repr q).data ++ " or udp.SrcPort == ".data
      ++ (Nat.repr q).data)

/-- `_build_filter_string`: the literal `"false"` when no game ports are
set, otherwise the parenthesised `" or "`-join of the per-port filters. -/
def build_filter_string (ports : List Nat) : List Char :=
  if ports.isEmpty then "false".data
  else "(".data ++ pyJoin " or ".data (ports.map port_filter) ++ ")".data

/-- One atomic predicate of the WinDivert filter language emitted by
`_build_filter_string`: protocol, direction and a port value. -/
inductive FilterAtom
  | tcpDst (port : Nat)
  | udpDst (port : Nat)
  | tcpSrc (port : Nat)
  | udpSrc (port : Nat)
deriving DecidableEq, Repr

/-- Concrete WinDivert syntax of one atom. -/
def renderAtom : FilterAtom → List Char
  | .tcpDst q => "tcp.DstPort == ".data ++ (Nat.repr q).data
  | .udpDst q => "udp.DstPort == ".data ++ (Nat.repr q).data
  | .tcpSrc q => "tcp.SrcPort == ".data ++ (Nat.repr q).data
  | .udpSrc q => "udp.SrcPort == ".data ++ (Nat.repr q).data

/-- WinDivert semantics of one atom on a (TCP or UDP) packet. -/
def atomMatches (p : Packet) : FilterAtom → Bool
  | .tcpDst q => p.isTcp && (p.dstPort == q)
  | .udpDst q => !p.isTcp && (p.dstPort == q)
  | .tcpSrc q => p.isTcp && (p.srcPort == q)
  | .udpSrc q => !p.isTcp && (p.srcPort == q)

/-- The four atoms `_build_filter_string` emits per port, in emission
order. -/
def portAtoms (q : Nat) : List FilterAtom :=
  [.tcpDst q, .udpDst q, .tcpSrc q, .udpSrc q]

/-- All atoms of the filter for a port list, in emission order. -/
def filterAtoms (ports : List Nat) : List FilterAtom :=
  (ports.map portAtoms).flatten

/-! ## Theorems: packet interception engine -/

/-- C2: a delivered packet is modified iff a best route is published and
one of its ports is monitored; in that case only the destination address
is set to the route (ports and payload are untouched); with no published
route, or for a non-matching packet, the packet is reinjected
byte-identical; and a failure-free run of the receive loop sends exactly
the per-packet rewrite of each delivered packet. -/
theorem process_packet_rewrite_characterization (gamePorts : List Nat)
    (bestRoute : Option (List Char)) (p : Packet) (s : CaptureState)
    (ds : List Delivery) :
    ((processPacket gamePorts bestRoute p).srcPort = p.srcPort ∧
      (processPacket gamePorts bestRoute p).dstPort = p.dstPort ∧
      (processPacket gamePorts bestRoute p).payload = p.payload) ∧
    (∀ r, bestRoute = some r → r ≠ [] → isGamePacket gamePorts p = true →
      processPacket gamePorts bestRoute p = { p with dstAddr := r }) ∧
    (bestRoute = none → processPacket gamePorts bestRoute p = p) ∧
    (isGamePacket gamePorts p = false → processPacket gamePorts bestRoute p = p) ∧
    (s.is_running = true → (∀ d ∈ ds, d.sendFails = false) →
      (processPackets gamePorts bestRoute s ds).sent
        = ds.map (fun d => processPacket gamePorts bestRoute d.packet)) := by
  refine ⟨?_, ?_, ?_, ?_, ?_⟩
  · unfold processPacket
    rcases bestRoute with _ | r
    · simp
    · by_cases hG : isGamePacket gamePorts p
      · by_cases hE : r.isEmpty <;> simp [hG, hE]
      · simp [hG]
  · intro r hB hr hG
    have hE : r.isEmpty = false := by
      cases r with
      | nil => exact absurd rfl hr
      | cons a t => rfl
    simp [processPacket, hB, hG, hE]
  · intro hB
    unfold processPacket
    by_cases hG : isGamePacket gamePorts p <;> simp [hB, hG]
  · intro hG
    simp [processPacket, hG]
  · intro hrun
    induction ds with
    | nil => intro _; simp [processPackets]
    | cons d rest ih =>
      intro hok
      have hd : d.sendFails = false := hok d (by simp)
      have hrest : ∀ d' ∈ rest, d'.sendFails = false := fun d' h => hok d' (by simp [h])
      simp [processPackets, hrun, hd, ih hrest]

/-- C2 witness: a concrete TCP packet on monitored port 27015 with best
route 9.9.9.9 published gets exactly its destination address rewritten. -/
theorem process_packet_rewrite_characterization_witness :
    processPacket [27015] (some "9.9.9.9".data)
        ⟨true, "10.0.0.2".data, "5.6.7.8".data, 1111, 27015, [1, 2, 3]⟩
      = { (⟨true, "10.0.0.2".data, "5.6.7.8".data, 1111, 27015, [1, 2, 3]⟩ : Packet)
          with dstAddr := "9.9.9.9".data } :=
  (process_packet_rewrite_characterization [27015] (some "9.9.9.9".data)
      ⟨true, "10.0.0.2".data, "5.6.7.8".data, 1111, 27015, [1, 2, 3]⟩
      ⟨true, true⟩ []).2.1 "9.9.9.9".data rfl (by decide) (by decide)

/-- C1 counterexample: a matching packet is delivered and its reinjection
fails.  The whole run evaluates to: nothing sent (`sent = []` — the
delivered packet is dropped, no fallback send of the original), capture
stopped (`is_running = false` — the receive loop does not keep running),
and the error logged.  Only the logging half of the claim holds. -/
theorem send_failure_drops_packet_and_stops_capture :
    processPackets [27015] (some "9.9.9.9".data) ⟨true, true⟩
        [⟨⟨true, "1.2.3.4".data, "5.6.7.8".data, 1111, 27015, [1, 2, 3]⟩, true⟩]
      = ⟨[], ⟨true, false⟩, true⟩ := by decide

/-- C1 amended: when reinjecting a delivered packet fails, the failure is
logged and `stop_capture` is invoked (halting capture whenever a handle
is open); the receive loop terminates, nothing is sent for that packet
or any later one, and no fallback send of the original packet occurs. -/
theorem send_failure_logs_and_stops_capture (gamePorts : List Nat)
    (bestRoute : Option (List Char)) (s : CaptureState) (d : Delivery)
    (rest : List Delivery) (hrun : s.is_running = true)
    (hf : d.sendFails = true) :
    processPackets gamePorts bestRoute s (d :: rest)
      = ⟨[], (stop_capture s).1, true⟩ ∧
    (s.windivert = true → ((stop_capture s).1).is_running = false) := by
  constructor
  · simp [processPackets, hrun, hf]
  · intro hw
    simp [stop_capture, hw, hrun]

/-- C1 amended witness: the concrete failing-send run of
`send_failure_drops_packet_and_stops_capture`, derived from the general
amended theorem. -/
theorem send_failure_logs_and_stops_capture_witness :
    processPackets [27015] (some "9.9.9.9".data) ⟨true, true⟩
        [⟨⟨true, "1.2.3.4".data, "5.6.7.8".data, 1111, 27015, [1, 2, 3]⟩, true⟩]
      = ⟨[], (stop_capture ⟨true, true⟩).1, true⟩ :=
  (send_failure_logs_and_stops_capture [27015] (some "9.9.9.9".data)
      ⟨true, true⟩ ⟨⟨true, "1.2.3.4".data, "5.6.7.8".data, 1111, 27015, [1, 2, 3]⟩, true⟩
      [] rfl rfl).1

/-- C8 counterexample: closing an open running session and then calling
`stop_capture` again: the second call returns the state unchanged with
outcome `noop` — it silently does nothing and raises no `Closed` error. -/
theorem second_stop_capture_is_noop :
    stop_capture ((stop_capture ⟨true, true⟩).1) = (⟨true, false⟩, StopOutcome.noop) ∧
    StopOutcome.noop ≠ StopOutcome.error "Closed".data := by decide

/-- C8 amended: the first `stop_capture` on an open running session
releases it (clears `is_running`); every call on a session that is not
running — in particular every subsequent call — is a silent no-op that
leaves the state unchanged and raises no error. -/
theorem stop_capture_first_releases_then_noop (s : CaptureState) :
    (s.windivert = true → s.is_running = true →
      stop_capture s = (⟨true, false⟩, StopOutcome.released)) ∧
    (s.is_running = false → stop_capture s = (s, StopOutcome.noop)) := by
  constructor
  · intro hw hr
    simp [stop_capture, hw, hr]
  · intro hr
    simp [stop_capture, hr]

/-- C8 amended witness: first close of the open running session releases
it, instantiated from the general theorem. -/
theorem stop_capture_first_releases_then_noop_witness :
    stop_capture ⟨true, true⟩ = (⟨true, false⟩, StopOutcome.released) :=
  (stop_capture_first_releases_then_noop ⟨true, true⟩).1 rfl rfl

/-! ## Theorems: route selector -/

/-- Updating an endpoint's stat then reading that endpoint yields the new
sample. -/
theorem statsGet_statsUpdate_self (stats : List (List Char × ℚ)) (ip : List Char)
    (t : ℚ) : statsGet (statsUpdate stats ip t) ip = some t := by
  induction stats with
  | nil => simp [statsUpdate, statsGet]
  | cons kv rest ih =>
    obtain ⟨k, v⟩ := kv
    by_cases h : k = ip <;> simp [statsUpdate, statsGet, h, ih]

/-- Updating one endpoint's stat leaves every other endpoint's reading
unchanged. -/
theorem statsGet_statsUpdate_ne (stats : List (List Char × ℚ)) (ip b : List Char)
    (t : ℚ) (h : b ≠ ip) : statsGet (statsUpdate stats ip t) b = statsGet stats b := by
  induction stats with
  | nil =>
    have hib : ¬(ip = b) := fun hib => h hib.symm
    simp [statsUpdate, statsGet, hib]
  | cons kv rest ih =>
    obtain ⟨k, v⟩ := kv
    by_cases hk : k = ip
    · subst hk
      have hkb : ¬(k = b) := fun hkb => h hkb.symm
      simp [statsUpdate, statsGet, hkb]
    · simp [statsUpdate, statsGet, hk, ih]

/-- C7: re-probing the endpoint that is already the published best route
never counts as a switch: the sample is recorded, but no "New best
route" notification fires and the best-route cell keeps its value,
whatever the new sample is (the stats entry is updated before the
comparison, which therefore reads the new sample itself). -/
theorem incumbent_reprobe_no_switch (s : RouteState) (c : List Char) (t : ℚ)
    (hb : s.best_route = some c) :
    recordSample s c t
      = ({ ping_stats := statsUpdate s.ping_stats c t, best_route := s.best_route }, false) := by
  simp [recordSample, hb, statsGet_statsUpdate_self]

/-- C7 witness: the incumbent 10.0.0.1, best at 20ms, re-probed at 19ms:
stats update to 19ms but no switch fires and the cell is untouched. -/
theorem incumbent_reprobe_no_switch_witness :
    recordSample ⟨[("10.0.0.1".data, 20)], some "10.0.0.1".data⟩ "10.0.0.1".data 19
      = (⟨[("10.0.0.1".data, 19)], some "10.0.0.1".data⟩, false) := by
  rw [incumbent_reprobe_no_switch ⟨[("10.0.0.1".data, 20)], some "10.0.0.1".data⟩
        "10.0.0.1".data 19 rfl]
  decide

/-- C3 counterexample: incumbent 10.0.0.1 recorded at 50ms; challenger
10.0.0.2 samples 49ms — only 1ms (2%) better, below any meaningful
hysteresis margin — yet the best route switches to the challenger and
the switch notification fires. -/
theorem any_strict_improvement_switches_route :
    recordSample ⟨[("10.0.0.1".data, 50)], some "10.0.0.1".data⟩ "10.0.0.2".data 49
      = (⟨[("10.0.0.1".data, 50), ("10.0.0.2".data, 49)], some "10.0.0.2".data⟩, true) := by
  decide

/-- C3 amended: the published best route switches from incumbent to
challenger exactly when the challenger's sample is strictly lower than
the incumbent's recorded latency — no hysteresis margin of any kind is
applied, so even a 1ms improvement triggers a switch. -/
theorem route_switch_iff_strictly_lower (s : RouteState) (ip : List Char) (t : ℚ)
    (b : List Char) (v : ℚ) (hb : s.best_route = some b) (hip : ip ≠ b)
    (hv : statsGet s.ping_stats b = some v) :
    (recordSample s ip t).2 = decide (t < v) ∧
    (recordSample s ip t).1.best_route = (if t < v then some ip else some b) := by
  have hget : statsGet (statsUpdate s.ping_stats ip t) b = some v := by
    rw [statsGet_statsUpdate_ne s.ping_stats ip b t (fun h => hip h.symm)]
    exact hv
  by_cases hlt : t < v <;> simp [recordSample, hb, hget, hlt]

/-- C3 amended witness: the 50ms incumbent versus the 49ms challenger
from the counterexample, via the general switching rule. -/
theorem route_switch_iff_strictly_lower_witness :
    (recordSample ⟨[("10.0.0.1".data, 50)], some "10.0.0.1".data⟩ "10.0.0.2".data 49).2
      = decide ((49 : ℚ) < 50) :=
  (route_switch_iff_strictly_lower ⟨[("10.0.0.1".data, 50)], some "10.0.0.1".data⟩
      "10.0.0.2".data 49 "10.0.0.1".data 50 rfl (by decide) rfl).1

/-! ## Theorems: game lifecycle detector -/

/-- C5: the edge-triggered lifecycle scenario.  Polling snapshots
(1) Steam helpers only, (2) plus `...\steamapps\common\Game\Game.exe`,
(3) unchanged, (4) the game removed, (5) the game re-added, starting
from no current game, emits exactly
`launched "Game"`, `closed`, `launched "Game"`: nothing for the
helper-only snapshot, one launch on the transition in (not one per poll
while it stays), one close on the transition out, and a fresh launch on
re-adding. -/
theorem game_lifecycle_edge_triggered_scenario :
    pollRun steamPath0 none
        [steamOnly0, steamOnly0 ++ [gameProc0], steamOnly0 ++ [gameProc0],
         steamOnly0, steamOnly0 ++ [gameProc0]]
      = [GameEvent.launched "Game".data, GameEvent.closed,
         GameEvent.launched "Game".data] := by
  decide

/-- C10: when a poll finds qualifying game B while the current game is a
different A, the detector emits `launched B` alone — and whenever some
qualifying game is found, `closed` is never emitted on that poll. -/
theorem direct_game_switch_emits_launch_without_close (steamPath : List Char)
    (procs : List Proc) (a b : List Char)
    (hfind : findGame steamPath procs = some b) (hab : a ≠ b) :
    pollStep steamPath (some a) procs = (some b, [GameEvent.launched b]) ∧
    ∀ cur, GameEvent.closed ∉ (pollStep steamPath cur procs).2 := by
  constructor
  · simp [pollStep, hfind, hab]
  · intro cur
    simp only [pollStep, hfind]
    split <;> simp

/-- C10 witness: current game "Other" while a `Game.exe` process is
found: one `launched "Game"` and no `closed`. -/
theorem direct_game_switch_emits_launch_without_close_witness :
    pollStep steamPath0 (some "Other".data) (steamOnly0 ++ [gameProc0])
      = (some "Game".data, [GameEvent.launched "Game".data]) :=
  (direct_game_switch_emits_launch_without_close steamPath0
      (steamOnly0 ++ [gameProc0]) "Other".data "Game".data (by decide) (by decide)).1

/-! ## Theorems: server region detector -/

/-- C4: feeding a log line `Selected Region: EU`, then a duplicate
`Selected Region: EU` line, then an ungrown re-feed, then a
`Selected Region: NA` line, fires the `on_server_change` callback
*three* times — the duplicate EU line fires a second `EU` event, because
the guard `new_server != self.current_server` compares whole dicts and
the fresh `time.time()` timestamp always differs.  The claim (and the
spec: emit only if the detected region differs from the stored state)
requires exactly one `EU` event here; the code emits two. -/
theorem duplicate_region_fires_twice :
    monitor_run (some searchRegion) ⟨⟨none, 0⟩, none⟩
        [("a.log".data, "Selected Region: EU\n".data, 100),
         ("a.log".data, "Selected Region: EU\nSelected Region: EU\n".data, 105),
         ("a.log".data, "Selected Region: EU\nSelected Region: EU\n".data, 110),
         ("a.log".data,
          "Selected Region: EU\nSelected Region: EU\nSelected Region: NA\n".data, 115)]
      = [⟨"EU".data, 100⟩, ⟨"EU".data, 105⟩, ⟨"NA".data, 115⟩] := by
  decide

/-- C6: per detection cycle with a configured pattern — (1) same file,
unchanged size: no bytes are read, the cursor is untouched and no server
is reported; (2) same file, changed size: exactly the bytes past the
recorded offset are read and the cursor advances to the new size;
(3) different file: the cursor resets to the new file and only the last
8KB of the new file's contents are read (no old-file content). -/
theorem log_cursor_reads_characterization
    (m : List Char → Option (List Char)) (cur : LogCursor)
    (path content : List Char) (now : ℚ) :
    (cur.current_log_file = some path → content.length = cur.last_log_size →
      detect_current_server (some m) cur path content now = ⟨cur, none, []⟩) ∧
    (cur.current_log_file = some path → content.length ≠ cur.last_log_size →
      (detect_current_server (some m) cur path content now).bytesRead
          = content.drop cur.last_log_size ∧
      (detect_current_server (some m) cur path content now).cursor
          = ⟨some path, content.length⟩) ∧
    (cur.current_log_file ≠ some path →
      (detect_current_server (some m) cur path content now).bytesRead
          = content.drop (content.length - 8192) ∧
      (detect_current_server (some m) cur path content now).cursor
          = ⟨some path, content.length⟩) := by
  refine ⟨?_, ?_, ?_⟩
  · intro hf hs
    simp [detect_current_server, hf, hs]
  · intro hf hs
    simp [detect_current_server, hf, hs]
  · intro hf
    simp [detect_current_server, hf]

/-- C6 witness: (1) an unchanged, ungrown file is not read at all, and
(3) a newly selected file is read from `size - 8192`. -/
theorem log_cursor_reads_characterization_witness :
    detect_current_server (some searchRegion) ⟨some "a.log".data, 20⟩
        "a.log".data "Selected Region: EU\n".data 100
      = ⟨⟨some "a.log".data, 20⟩, none, []⟩ ∧
    (detect_current_server (some searchRegion) ⟨none, 0⟩
        "b.log".data "Selected Region: NA\n".data 100).bytesRead
      = "Selected Region: NA\n".data.drop ("Selected Region: NA\n".data.length - 8192) :=
  ⟨(log_cursor_reads_characterization searchRegion ⟨some "a.log".data, 20⟩
      "a.log".data "Selected Region: EU\n".data 100).1 rfl (by decide),
   ((log_cursor_reads_characterization searchRegion ⟨none, 0⟩
      "b.log".data "Selected Region: NA\n".data 100).2.2 (by decide)).1⟩

/-! ## Theorems: filter builder -/

/-- One per-port filter string is the `" or "`-join of its four rendered
atoms. -/
theorem port_filter_as_atoms (q : Nat) :
    port_filter q = pyJoin " or ".data ((portAtoms q).map renderAtom) := by
  simp only [port_filter, portAtoms, List.map, pyJoin, renderAtom, List.append_assoc]
  rfl

/-- `pyJoin` distributes over append of non-empty chunk lists with one
separator in between. -/
theorem pyJoin_append (sep : List Char) (xs ys : List (List Char))
    (hx : xs ≠ []) (hy : ys ≠ []) :
    pyJoin sep (xs ++ ys) = pyJoin sep xs ++ sep ++ pyJoin sep ys := by
  induction xs with
  | nil => cases hx rfl
  | cons x t ih =>
    cases t with
    | nil =>
      cases ys with
      | nil => cases hy rfl
      | cons y t' => simp [pyJoin]
    | cons x' t' =>
      have h := ih (by simp)
      simp only [List.cons_append, List.append_eq, pyJoin] at h ⊢
      rw [h]
      simp [List.append_assoc]

/-- Unfolding `filterAtoms` one port at a time. -/
theorem filterAtoms_cons (q : Nat) (t : List Nat) :
    filterAtoms (q :: t) = portAtoms q ++ filterAtoms t := by
  simp [filterAtoms]

/-- The join of the per-port source strings is the join of all rendered
atoms. -/
theorem pyJoin_filterAtoms (ports : List Nat) (h : ports ≠ []) :
    pyJoin " or ".data (ports.map port_filter)
      = pyJoin " or ".data ((filterAtoms ports).map renderAtom) := by
  induction ports with
  | nil => cases h rfl
  | cons q t ih =>
    cases t with
    | nil =>
      simp [filterAtoms, port_filter_as_atoms, pyJoin]
    | cons q' t' =>
      rw [filterAtoms_cons, List.map_append,
        pyJoin_append " or ".data _ _ (by simp [portAtoms])
          (by simp [filterAtoms_cons, portAtoms]),
        ← port_filter_as_atoms, ← ih (by simp)]
      simp [pyJoin]

/-- C9: with no monitored ports the compiled filter is the literal
string `false` (and the engine, run with no ports, matches and rewrites
nothing); with a non-empty port set the filter is exactly the
parenthesised OR of the `tcp`/`udp` source- and destination-port
equality atoms of each port, and that OR matches a packet iff one of the
packet's ports is a monitored port. -/
theorem filter_string_characterization (ports : List Nat)
    (bestRoute : Option (List Char)) (p : Packet) :
    (build_filter_string [] = "false".data) ∧
    (ports ≠ [] → build_filter_string ports
        = "(".data ++ pyJoin " or ".data ((filterAtoms ports).map renderAtom)
          ++ ")".data) ∧
    ((filterAtoms ports).any (atomMatches p) = true
        ↔ ∃ q ∈ ports, p.dstPort = q ∨ p.srcPort = q) ∧
    (processPacket [] bestRoute p = p) := by
  refine ⟨rfl, ?_, ?_, ?_⟩
  · intro h
    have hne : ports.isEmpty = false := by
      cases ports with
      | nil => cases h rfl
      | cons a t => rfl
    rw [build_filter_string, hne, pyJoin_filterAtoms ports h]
    simp
  · induction ports with
    | nil => simp [filterAtoms]
    | cons q t ih =>
      have hgroup : (portAtoms q).any (atomMatches p)
          = (p.dstPort == q || p.srcPort == q) := by
        cases hp : p.isTcp <;> simp [portAtoms, atomMatches, hp]
      rw [filterAtoms_cons, List.any_append, hgroup]
      simp only [Bool.or_eq_true, beq_iff_eq, ih, List.mem_cons]
      constructor
      · rintro ((hd | hs) | ⟨r, hr, hor⟩)
        · exact ⟨q, Or.inl rfl, Or.inl hd⟩
        · exact ⟨q, Or.inl rfl, Or.inr hs⟩
        · exact ⟨r, Or.inr hr, hor⟩
      · rintro ⟨r, (rfl | hr), hor⟩
        · exact Or.inl (by simpa using hor)
        · exact Or.inr ⟨r, hr, hor⟩
  · simp [processPacket, isGamePacket]

/-- C9 witness: the monitored port 27015 compiles to exactly the OR of
its four atoms. -/
theorem filter_string_characterization_witness :
    build_filter_string [27015]
      = ("(tcp.DstPort == 27015 or udp.DstPort == 27015 or "
          ++ "tcp.SrcPort == 27015 or udp.SrcPort == 27015)").data := by
  rw [(filter_string_characterization [27015] none
      ⟨true, [], [], 0, 0, []⟩).2.1 (by decide)]
  decide

end NoPing
